import Mathlib

/-!
Shallow embedding of `backend/main.py`: a FastAPI service with three
endpoints (`/`, `POST /analyze/`, `GET /audio/{filename}`), a scene
description pipeline (`describe_scene`), and local file storage under
the `uploads` directory.

Third-party model calls (PIL decode, the Faster R-CNN detector, the
BLIP captioner, gTTS) are modelled as abstract fallible functions
supplied through a stage record; the Python-level control flow, string
manipulation and filesystem writes are translated directly from the
source.
-/

deriving instance DecidableEq for Except

namespace BlindHelp

/-! ### Python string / path primitives used by the source -/

/-- Model of Python `str.lower()` (ASCII case folding, which covers
every string the source compares). -/
def pyLower (s : List Char) : List Char := s.map Char.toLower

/-- Model of Python `s.split(sep)[-1]` for a one-character separator:
everything after the last occurrence of `sep` (the whole string when
`sep` does not occur). -/
def lastComponentAfter (sep : Char) (s : List Char) : List Char :=
  s.foldl (fun acc c => if c = sep then [] else acc ++ [c]) []

/-- Model of Python `str.replace(old, new)` (all non-overlapping
occurrences, scanned left to right), on `List Char`, driven by a fuel
argument so the recursion is structural.  Call sites always pass a
non-empty `old` and fuel `= s.length`, which is enough fuel because
every step consumes at least one character of `s`. -/
def pyReplaceAux (old new : List Char) : Nat → List Char → List Char
  | 0, s => s
  | _ + 1, [] => []
  | fuel + 1, c :: rest =>
    if old.isPrefixOf (c :: rest) then
      new ++ pyReplaceAux old new fuel ((c :: rest).drop old.length)
    else
      c :: pyReplaceAux old new fuel rest

/-- Model of Python `s.replace(old, new)` for non-empty `old`. -/
def pyReplace (s old new : String) : String :=
  String.mk (pyReplaceAux old.toList new.toList s.toList.length s.toList)

/-- Model of Python `os.path.join(a, b)` (POSIX, two arguments). -/
def os_path_join (a b : String) : String :=
  if b.toList.head? = some '/' then b
  else if a = "" ∨ a.toList.getLast? = some '/' then a ++ b
  else a ++ "/" ++ b

/-- Model of Python `os.path.basename(p)` (POSIX): everything after
the last `/`. -/
def os_path_basename (p : String) : String :=
  String.mk (lastComponentAfter '/' p.toList)

/-! ### Constants from `main.py` -/

/-- `UPLOAD_DIR = "uploads"` (line 49). -/
def UPLOAD_DIR : String := "uploads"

/-- `allowed_extensions = {"jpg", "jpeg", "png"}` (line 103). -/
def allowed_extensions : List String := ["jpg", "jpeg", "png"]

/-- `max_file_size = 5 * 1024 * 1024` (line 109). -/
def max_file_size : Nat := 5 * 1024 * 1024

/-- `file.filename.split(".")[-1].lower()` (line 104). -/
def file_ext (filename : String) : String :=
  String.mk (pyLower (lastComponentAfter '.' filename.toList))

/-- The default `detection_threshold=0.6` of `describe_scene`
(line 59), as the rational 6/10 (see
`default_detection_threshold_eq`). -/
def default_detection_threshold : ℚ := mkRat 6 10

/-- The default `max_caption_length=50` of `describe_scene` (line 59). -/
def default_max_caption_length : Nat := 50

/-! ### Data model -/

/-- One object detection: bounding box, label, confidence score
(the rows of `detections["boxes"]`, `["labels"]`, `["scores"]`). -/
structure Detection where
  box : Int × Int × Int × Int
  label : Nat
  score : ℚ
  deriving DecidableEq

/-- Abstract behaviour of the third-party stages of `describe_scene`
on one particular image file.  Images are abstract identifiers, token
batches are integer lists; each stage may raise (modelled as
`Except.error` carrying the Python exception message).
  * `decode`: `Image.open(image_path).convert("RGB")` (line 64);
  * `detect`: `object_detector(input_tensor)[0]` with the score/box/
    label extraction (lines 69-75);
  * `generate`: `caption_processor(images=image, text=prompt, ...)`
    followed by `caption_model.generate(**inputs,
    max_length=max_caption_length)`, returning `generated_ids[0]`
    (lines 78-80);
  * `decodeTokens`: `caption_processor.decode(ids, skip_special_tokens)`
    (line 81). -/
structure SceneStages where
  decode : Except String Nat
  detect : Nat → Except String (List Detection)
  generate : Nat → String → Nat → Except String (List Int)
  decodeTokens : List Int → Bool → Except String String

/-- The body of the `try:` block of `describe_scene` (lines 64-83):
decode, detect, filter by score, caption, return the caption. -/
def describe_scene_body (st : SceneStages) (detection_threshold : ℚ)
    (max_caption_length : Nat) : Except String String := do
  let image ← st.decode
  let detections ← st.detect image
  let _keep := detections.filter (fun d => detection_threshold ≤ d.score)
  let generated_ids ← st.generate image "" max_caption_length
  let caption ← st.decodeTokens generated_ids true
  pure caption

/-- `describe_scene` (lines 59-87).  The Python defaults are
`detection_threshold=0.6`, `max_caption_length=50`.  Any exception in
the body is caught and re-raised as
`HTTPException(status_code=500, detail=f"Error in scene description: {str(e)}")`;
the error component is the `(status_code, detail)` pair of the raised
`HTTPException`. -/
def describe_scene (st : SceneStages) (detection_threshold : ℚ)
    (max_caption_length : Nat) : Except (Nat × String) String :=
  match describe_scene_body st detection_threshold max_caption_length with
  | .ok caption => .ok caption
  | .error e => .error (500, "Error in scene description: " ++ e)

/-- The detection result of `describe_scene` after threshold filtering
(lines 69-75): computed inside the function but never returned. -/
def scene_detections (st : SceneStages) (detection_threshold : ℚ) :
    Except String (List Detection) := do
  let image ← st.decode
  let detections ← st.detect image
  pure (detections.filter (fun d => detection_threshold ≤ d.score))

/-! ### The HTTP layer -/

/-- The local filesystem, as an association list from path to byte
content (most recent write first). -/
abbrev FS := List (String × List Nat)

/-- An HTTP response: `JSONResponse({"caption": ..., "audio_url": ...})`,
`FileResponse(path, media_type=...)`, or a raised `HTTPException`. -/
inductive Response where
  | json (caption : String) (audio_url : String)
  | fileResp (path : String) (media_type : String)
  | error (status : Nat) (detail : String)
  deriving DecidableEq

/-- HTTP status of a response (`JSONResponse` and `FileResponse`
default to 200). -/
def Response.status : Response → Nat
  | .json _ _ => 200
  | .fileResp _ _ => 200
  | .error s _ => s

/-- Per-request environment of `analyze_image`: the `uuid.uuid4()`
value drawn for this call, the behaviour of the model stages on the
uploaded image, and the behaviour of `gtts.gTTS(caption).save(...)`
(caption to audio bytes, or an exception message). -/
structure AnalyzeEnv where
  uuid4 : String
  stages : SceneStages
  tts : String → Except String (List Nat)

/-- Result of one `POST /analyze/` request: the response, the final
filesystem, and whether the model pipeline (`describe_scene`) was
invoked. -/
structure AnalyzeResult where
  response : Response
  fs : FS
  modelInvoked : Bool
  deriving DecidableEq

/-- `analyze_image` (lines 96-135), as a function of the uploaded
file's name and bytes and of the current filesystem.
  * type check: `file_ext not in allowed_extensions` → 422 (105-106);
  * size check: seek/tell gives the byte length; `> max_file_size`
    → 422 (110-114);
  * save: `file_path = os.path.join(UPLOAD_DIR, f"{uuid.uuid4()}.{file_ext}")`,
    written via `shutil.copyfileobj` (117-119);
  * `caption = describe_scene(file_path)` with default arguments (122);
    an `HTTPException` raised inside propagates unchanged (131-132);
  * `tts_file = file_path.replace(f".{file_ext}", ".mp3")`; gTTS
    renders the caption into it (125-127); a non-`HTTPException`
    failure becomes `HTTPException(500, f"Failed to process image: ...")`
    (133-135);
  * success: `{"caption": caption, "audio_url": f"/audio/{os.path.basename(tts_file)}"}`
    (129). -/
def analyze_image (env : AnalyzeEnv) (filename : String)
    (content : List Nat) (fs : FS) : AnalyzeResult :=
  if allowed_extensions.contains (file_ext filename) = false then
    ⟨.error 422 "Invalid file type. Only JPG, JPEG, and PNG are allowed.", fs, false⟩
  else if content.length > max_file_size then
    ⟨.error 422 "File size exceeds the 5MB limit.", fs, false⟩
  else
    let fext := file_ext filename
    let file_path := os_path_join UPLOAD_DIR (env.uuid4 ++ "." ++ fext)
    let fs1 : FS := (file_path, content) :: fs
    match describe_scene env.stages default_detection_threshold
        default_max_caption_length with
    | .error (s, d) => ⟨.error s d, fs1, true⟩
    | .ok caption =>
      let tts_file := pyReplace file_path ("." ++ fext) ".mp3"
      match env.tts caption with
      | .error msg =>
        ⟨.error 500 ("Failed to process image: " ++ msg), fs1, true⟩
      | .ok audio_bytes =>
        ⟨.json caption ("/audio/" ++ os_path_basename tts_file),
          (tts_file, audio_bytes) :: fs1, true⟩

/-- `get_audio` (lines 137-145): join the filename onto `UPLOAD_DIR`,
404 when the path does not exist, otherwise serve it with media type
`audio/mpeg`. -/
def get_audio (fs : FS) (filename : String) : Response :=
  let file_path := os_path_join UPLOAD_DIR filename
  if (fs.lookup file_path).isNone then
    .error 404 "Audio file not found"
  else
    .fileResp file_path "audio/mpeg"

/-! ### Concrete sample environments (used to instantiate theorems) -/

/-- A sample behaviour of the model stages on one image: decoding
succeeds, the detector returns one high- and one low-confidence
detection, captioning succeeds. -/
def demoStages : SceneStages where
  decode := .ok 0
  detect := fun _ => .ok
    [⟨(0, 0, 2, 2), 1, mkRat 9 10⟩, ⟨(1, 1, 2, 2), 2, mkRat 1 2⟩]
  generate := fun _ _ _ => .ok [101, 102]
  decodeTokens := fun _ _ => .ok "a dog on grass"

/-- A sample request environment whose whole pipeline succeeds. -/
def demoEnv : AnalyzeEnv where
  uuid4 := "u0"
  stages := demoStages
  tts := fun _ => .ok [3, 4]

/-- Stages whose image decode raises (a corrupt upload). -/
def failStages : SceneStages where
  decode := .error "cannot identify image file"
  detect := fun _ => .ok []
  generate := fun _ _ _ => .ok []
  decodeTokens := fun _ _ => .ok ""

/-- A request environment whose decode stage fails. -/
def failEnv : AnalyzeEnv := ⟨"u1", failStages, fun _ => .ok [0]⟩

/-- A request environment whose speech synthesis stage fails. -/
def ttsFailEnv : AnalyzeEnv := ⟨"u2", demoStages, fun _ => .error "gTTS connection error"⟩

/-- A second all-success request environment with a different
generated identifier. -/
def demoEnv2 : AnalyzeEnv := ⟨"u3", demoStages, fun _ => .ok [9]⟩

/-! ### Helper lemmas -/

lemma default_detection_threshold_eq : default_detection_threshold = 0.6 := by
  rw [default_detection_threshold, Rat.mkRat_eq_div]
  norm_num

lemma foldl_collect_sep_free (sep : Char) (s : List Char)
    (hs : ∀ c ∈ s, c ≠ sep) (acc : List Char) :
    s.foldl (fun acc c => if c = sep then [] else acc ++ [c]) acc = acc ++ s := by
  induction s generalizing acc with
  | nil => simp
  | cons c rest ih =>
    have hc : c ≠ sep := hs c (by simp)
    simp only [List.foldl_cons, if_neg hc]
    rw [ih (fun d hd => hs d (by simp [hd]))]
    simp

lemma lastComponentAfter_sep_free (sep : Char) (s : List Char)
    (hs : ∀ c ∈ s, c ≠ sep) : lastComponentAfter sep s = s := by
  rw [lastComponentAfter, foldl_collect_sep_free sep s hs]
  simp

lemma lastComponentAfter_append (sep : Char) (a b : List Char)
    (hb : ∀ c ∈ b, c ≠ sep) :
    lastComponentAfter sep (a ++ sep :: b) = b := by
  unfold lastComponentAfter
  rw [List.foldl_append]
  simp only [List.foldl_cons, if_pos rfl]
  rw [foldl_collect_sep_free sep b hb]
  simp

lemma mem_toList_append (c : Char) (x y : String) :
    c ∈ (x ++ y).toList ↔ c ∈ x.toList ∨ c ∈ y.toList := by
  simp [String.toList, String.data_append]

lemma os_path_basename_append (A b : String)
    (hb : ∀ c ∈ b.toList, c ≠ '/') :
    os_path_basename (A ++ "/" ++ b) = b := by
  unfold os_path_basename
  have h1 : (A ++ "/" ++ b).toList = A.toList ++ '/' :: b.toList := by
    simp [String.toList, String.data_append]
  rw [h1, lastComponentAfter_append '/' _ _ hb]
  rfl

lemma isPrefixOf_cons_ne (d c : Char) (old s : List Char) (h : c ≠ d) :
    (d :: old).isPrefixOf (c :: s) = false := by
  simp [List.isPrefixOf]
  intro hh
  exact absurd hh.symm h

lemma pyReplaceAux_nil (old new : List Char) (fuel : Nat) :
    pyReplaceAux old new fuel [] = [] := by
  cases fuel <;> rfl

lemma pyReplaceAux_skip (sep : Char) (old' new s : List Char) (fuel : Nat) :
    ∀ a : List Char, (∀ c ∈ a, c ≠ sep) →
      pyReplaceAux (sep :: old') new (a.length + fuel) (a ++ s) =
        a ++ pyReplaceAux (sep :: old') new fuel s := by
  intro a
  induction a with
  | nil => intro _; simp
  | cons c a' ih =>
    intro ha
    have hc : c ≠ sep := ha c (by simp)
    have hlen : (c :: a').length + fuel = (a'.length + fuel) + 1 := by
      simp [List.length_cons]; omega
    rw [hlen]
    show pyReplaceAux (sep :: old') new ((a'.length + fuel) + 1) (c :: (a' ++ s)) = _
    simp only [pyReplaceAux, isPrefixOf_cons_ne sep c old' (a' ++ s) hc,
      Bool.false_eq_true, if_false]
    rw [ih (fun d hd => ha d (by simp [hd]))]
    simp

lemma pyReplaceAux_head (old new s : List Char) (fuel : Nat) (h : old ≠ []) :
    pyReplaceAux old new (fuel + 1) (old ++ s) =
      new ++ pyReplaceAux old new fuel s := by
  cases old with
  | nil => exact absurd rfl h
  | cons o ot =>
    show pyReplaceAux (o :: ot) new (fuel + 1) (o :: (ot ++ s)) = _
    have hpre : (o :: ot).isPrefixOf (o :: (ot ++ s)) = true := by
      rw [ List.isPrefixOf_iff_prefix]
      exact (List.cons_append o ot s) ▸ List.prefix_append (o :: ot) s
    simp only [pyReplaceAux, hpre, if_true]
    have hdrop : (o :: (ot ++ s)).drop (o :: ot).length = s := by
      rw [← List.cons_append]
      exact List.drop_left (o :: ot) s
    rw [hdrop]

lemma pyReplace_derive (A O N : String) (hO : O.toList.head? = some '.')
    (hA : ∀ c ∈ A.toList, c ≠ '.') :
    pyReplace (A ++ O) O N = A ++ N := by
  obtain ⟨O', hO'⟩ : ∃ O', O.toList = '.' :: O' := by
    cases h : O.toList with
    | nil => rw [h] at hO; simp at hO
    | cons x xs =>
      rw [h] at hO
      simp at hO
      exact ⟨xs, by rw [hO]⟩
  unfold pyReplace
  have hdata : (A ++ O).toList = A.toList ++ '.' :: O' := by
    simp [String.toList, String.data_append, ← hO']
  rw [hdata, hO']
  have hlen : (A.toList ++ '.' :: O').length = A.toList.length + (O'.length + 1) := by
    simp
  rw [hlen, pyReplaceAux_skip '.' O' N.toList ('.' :: O') (O'.length + 1) A.toList hA]
  have hhead : pyReplaceAux ('.' :: O') N.toList (O'.length + 1) ('.' :: O') =
      N.toList ++ pyReplaceAux ('.' :: O') N.toList ((('.' :: O').length) - 1) [] := by
    have := pyReplaceAux_head ('.' :: O') N.toList [] O'.length (by simp)
    simpa using this
  rw [hhead, pyReplaceAux_nil]
  apply String.ext
  simp [String.toList, String.data_append]

lemma os_path_join_uploads (b : String) (hb : b.toList.head? ≠ some '/') :
    os_path_join UPLOAD_DIR b = "uploads" ++ "/" ++ b := by
  unfold os_path_join UPLOAD_DIR
  rw [if_neg hb, if_neg (by decide)]

lemma head_ne_slash_append (u rest : String) (hu : ∀ c ∈ u.toList, c ≠ '/')
    (hrest : rest.toList.head? ≠ some '/') :
    (u ++ rest).toList.head? ≠ some '/' := by
  rw [show (u ++ rest).toList = u.toList ++ rest.toList by
    simp [String.toList, String.data_append]]
  rw [List.head?_append]
  cases h : u.toList.head? with
  | none => simpa using hrest
  | some c =>
    have hc : c ∈ u.toList := by
      cases hl : u.toList with
      | nil => rw [hl] at h; simp at h
      | cons x xs =>
        rw [hl] at h
        simp at h
        simp [← h]
    simpa using hu c hc

lemma analyze_file_path (u fext : String) (hslash : ∀ c ∈ u.toList, c ≠ '/') :
    os_path_join UPLOAD_DIR (u ++ "." ++ fext) =
      "uploads" ++ "/" ++ (u ++ "." ++ fext) := by
  apply os_path_join_uploads
  rw [String.append_assoc]
  apply head_ne_slash_append u _ hslash
  rw [show ("." ++ fext).toList = '.' :: fext.toList by
    simp [String.toList, String.data_append]]
  simp

lemma tts_file_eq (u fext : String) (hdot : ∀ c ∈ u.toList, c ≠ '.') :
    pyReplace ("uploads" ++ "/" ++ (u ++ "." ++ fext)) ("." ++ fext) ".mp3" =
      "uploads" ++ "/" ++ (u ++ ".mp3") := by
  have hsplit : "uploads" ++ "/" ++ (u ++ "." ++ fext) =
      ("uploads" ++ "/" ++ u) ++ ("." ++ fext) := by
    apply String.ext
    simp [String.data_append, List.append_assoc]
  rw [hsplit, pyReplace_derive ("uploads" ++ "/" ++ u) ("." ++ fext) ".mp3"]
  · apply String.ext
    simp [String.data_append, List.append_assoc]
  · rw [show ("." ++ fext).toList = '.' :: fext.toList by
      simp [String.toList, String.data_append]]
    rfl
  · intro c hc
    rw [mem_toList_append] at hc
    rcases hc with hc | hc
    · rw [mem_toList_append] at hc
      rcases hc with hc | hc
      · exact (show ∀ c ∈ ("uploads" : String).toList, c ≠ '.' by decide) c hc
      · exact (show ∀ c ∈ ("/" : String).toList, c ≠ '.' by decide) c hc
    · exact hdot c hc

lemma basename_tts (u : String) (hslash : ∀ c ∈ u.toList, c ≠ '/') :
    os_path_basename ("uploads" ++ "/" ++ (u ++ ".mp3")) = u ++ ".mp3" := by
  apply os_path_basename_append
  intro c hc
  rw [mem_toList_append] at hc
  rcases hc with hc | hc
  · exact hslash c hc
  · exact (show ∀ c ∈ (".mp3" : String).toList, c ≠ '/' by decide) c hc

lemma analyze_success_shape (env : AnalyzeEnv) (filename : String)
    (content : List Nat) (fs : FS) (cap : String) (ab : List Nat)
    (hext : allowed_extensions.contains (file_ext filename) = true)
    (hsize : ¬ content.length > max_file_size)
    (hdesc : describe_scene env.stages default_detection_threshold
      default_max_caption_length = .ok cap)
    (htts : env.tts cap = .ok ab)
    (hdot : ∀ c ∈ env.uuid4.toList, c ≠ '.')
    (hslash : ∀ c ∈ env.uuid4.toList, c ≠ '/') :
    analyze_image env filename content fs =
      ⟨.json cap ("/audio/" ++ (env.uuid4 ++ ".mp3")),
        ("uploads" ++ "/" ++ (env.uuid4 ++ ".mp3"), ab) ::
          ("uploads" ++ "/" ++ (env.uuid4 ++ "." ++ file_ext filename), content) :: fs,
        true⟩ := by
  unfold analyze_image
  rw [if_neg (by rw [hext]; simp), if_neg hsize]
  simp only [hdesc, htts]
  rw [analyze_file_path env.uuid4 (file_ext filename) hslash,
    tts_file_eq env.uuid4 (file_ext filename) hdot,
    basename_tts env.uuid4 hslash]

lemma describe_scene_ok_iff (st : SceneStages) (t : ℚ) (m : Nat) (c : String) :
    describe_scene st t m = .ok c ↔ describe_scene_body st t m = .ok c := by
  unfold describe_scene
  cases h : describe_scene_body st t m <;> simp

lemma describe_scene_error_inv (st : SceneStages) (t : ℚ) (m : Nat)
    (e : Nat × String) (h : describe_scene st t m = .error e) :
    ∃ msg, describe_scene_body st t m = .error msg ∧
      e = (500, "Error in scene description: " ++ msg) := by
  unfold describe_scene at h
  cases hb : describe_scene_body st t m with
  | ok c => rw [hb] at h; simp at h
  | error msg =>
    rw [hb] at h
    simp at h
    exact ⟨msg, rfl, h.symm⟩

lemma analyze_image_cases (env : AnalyzeEnv) (filename : String)
    (content : List Nat) (fs : FS) :
    (allowed_extensions.contains (file_ext filename) = false ∧
      analyze_image env filename content fs =
        ⟨.error 422 "Invalid file type. Only JPG, JPEG, and PNG are allowed.",
          fs, false⟩) ∨
    (allowed_extensions.contains (file_ext filename) = true ∧
      content.length > max_file_size ∧
      analyze_image env filename content fs =
        ⟨.error 422 "File size exceeds the 5MB limit.", fs, false⟩) ∨
    (allowed_extensions.contains (file_ext filename) = true ∧
      ¬ content.length > max_file_size ∧
      ((∃ d, describe_scene env.stages default_detection_threshold
          default_max_caption_length = .error (500, d) ∧
        analyze_image env filename content fs =
          ⟨.error 500 d,
            (os_path_join UPLOAD_DIR (env.uuid4 ++ "." ++ file_ext filename),
              content) :: fs, true⟩) ∨
      (∃ cap m, describe_scene env.stages default_detection_threshold
          default_max_caption_length = .ok cap ∧ env.tts cap = .error m ∧
        analyze_image env filename content fs =
          ⟨.error 500 ("Failed to process image: " ++ m),
            (os_path_join UPLOAD_DIR (env.uuid4 ++ "." ++ file_ext filename),
              content) :: fs, true⟩) ∨
      (∃ cap ab, describe_scene env.stages default_detection_threshold
          default_max_caption_length = .ok cap ∧ env.tts cap = .ok ab ∧
        analyze_image env filename content fs =
          ⟨.json cap ("/audio/" ++ os_path_basename (pyReplace
              (os_path_join UPLOAD_DIR (env.uuid4 ++ "." ++ file_ext filename))
              ("." ++ file_ext filename) ".mp3")),
            (pyReplace
              (os_path_join UPLOAD_DIR (env.uuid4 ++ "." ++ file_ext filename))
              ("." ++ file_ext filename) ".mp3", ab) ::
            (os_path_join UPLOAD_DIR (env.uuid4 ++ "." ++ file_ext filename),
              content) :: fs, true⟩))) := by
  by_cases h1 : allowed_extensions.contains (file_ext filename) = false
  · left
    exact ⟨h1, by unfold analyze_image; rw [if_pos h1]⟩
  · have h1t : allowed_extensions.contains (file_ext filename) = true := by
      revert h1; cases allowed_extensions.contains (file_ext filename) <;> simp
    right
    by_cases h2 : content.length > max_file_size
    · left
      exact ⟨h1t, h2, by unfold analyze_image; rw [if_neg h1, if_pos h2]⟩
    · right
      refine ⟨h1t, h2, ?_⟩
      cases hd : describe_scene env.stages default_detection_threshold
          default_max_caption_length with
      | error e =>
        left
        obtain ⟨msg, _, he⟩ := describe_scene_error_inv _ _ _ _ hd
        subst he
        refine ⟨"Error in scene description: " ++ msg, rfl, ?_⟩
        unfold analyze_image
        rw [if_neg h1, if_neg h2]
        simp only [hd]
      | ok cap =>
        right
        cases ht : env.tts cap with
        | error m =>
          left
          refine ⟨cap, m, rfl, ht, ?_⟩
          unfold analyze_image
          rw [if_neg h1, if_neg h2]
          simp only [hd, ht]
        | ok ab =>
          right
          refine ⟨cap, ab, rfl, ht, ?_⟩
          unfold analyze_image
          rw [if_neg h1, if_neg h2]
          simp only [hd, ht]


/-! ### Claims -/

/-- C1: a `POST /analyze/` request whose filename extension
(case-insensitively) is not in {jpg, jpeg, png}, or whose byte length
exceeds 5 MiB, gets a 422 response, writes no file (the filesystem is
unchanged), and invokes no model. -/
theorem analyze_rejects_invalid_upload (env : AnalyzeEnv)
    (filename : String) (content : List Nat) (fs : FS)
    (h : allowed_extensions.contains (file_ext filename) = false ∨
      content.length > 5 * 1024 * 1024) :
    (analyze_image env filename content fs).response.status = 422 ∧
    (analyze_image env filename content fs).fs = fs ∧
    (analyze_image env filename content fs).modelInvoked = false := by
  rcases analyze_image_cases env filename content fs with
    ⟨hx, hr⟩ | ⟨hx, hs, hr⟩ | ⟨hx, hs, _⟩
  · rw [hr]
    exact ⟨rfl, rfl, rfl⟩
  · rw [hr]
    exact ⟨rfl, rfl, rfl⟩
  · rcases h with h | h
    · rw [hx] at h
      exact absurd h (by simp)
    · exact absurd h hs

/-- Witness for C1 at a concrete rejected upload (`notes.txt`). -/
theorem analyze_rejects_invalid_upload_witness :
    (allowed_extensions.contains (file_ext "notes.txt") = false ∨
      ([] : List Nat).length > 5 * 1024 * 1024) ∧
    ((analyze_image demoEnv "notes.txt" [] []).response.status = 422 ∧
      (analyze_image demoEnv "notes.txt" [] []).fs = [] ∧
      (analyze_image demoEnv "notes.txt" [] []).modelInvoked = false) :=
  ⟨Or.inl (by decide),
    analyze_rejects_invalid_upload demoEnv "notes.txt" [] []
      (Or.inl (by decide))⟩

/-- C10: when both validation rules are violated (disallowed extension
and oversized payload), the extension check runs first, so the
response is the 422 invalid-file-type error, never the size-limit
message. -/
theorem analyze_ext_check_precedence (env : AnalyzeEnv)
    (filename : String) (content : List Nat) (fs : FS)
    (hext : allowed_extensions.contains (file_ext filename) = false)
    (_hsize : content.length > max_file_size) :
    analyze_image env filename content fs =
      ⟨.error 422 "Invalid file type. Only JPG, JPEG, and PNG are allowed.",
        fs, false⟩ := by
  unfold analyze_image
  rw [if_pos hext]

/-- Witness for C10: a dotfile-free `.txt` name with an oversized body. -/
theorem analyze_ext_check_precedence_witness :
    (allowed_extensions.contains (file_ext "big.txt") = false) ∧
    ((List.replicate (5 * 1024 * 1024 + 1) 0).length > max_file_size) ∧
    (analyze_image demoEnv "big.txt" (List.replicate (5 * 1024 * 1024 + 1) 0) [] =
      ⟨.error 422 "Invalid file type. Only JPG, JPEG, and PNG are allowed.",
        [], false⟩) :=
  ⟨by decide, by rw [List.length_replicate]; simp [max_file_size],
    analyze_ext_check_precedence demoEnv "big.txt" _ [] (by decide)
      (by rw [List.length_replicate]; simp [max_file_size])⟩

/-- C6: for an upload with an allowed extension, the 422 size
rejection happens exactly when the byte length strictly exceeds
5 MiB = 5*1024*1024 bytes; exactly 5 MiB passes the size check. -/
theorem analyze_size_limit_iff (env : AnalyzeEnv)
    (filename : String) (content : List Nat) (fs : FS)
    (hext : allowed_extensions.contains (file_ext filename) = true) :
    (analyze_image env filename content fs).response =
        .error 422 "File size exceeds the 5MB limit." ↔
      content.length > 5 * 1024 * 1024 := by
  rcases analyze_image_cases env filename content fs with
    ⟨hx, hr⟩ | ⟨hx, hs, hr⟩ | ⟨hx, hs, ⟨d, hd, hr⟩ | ⟨cap, m, hd, ht, hr⟩ | ⟨cap, ab, hd, ht, hr⟩⟩
  · rw [hext] at hx
    exact absurd hx (by simp)
  · rw [hr]
    simp only [max_file_size] at hs
    simp [hs]
  · rw [hr]
    constructor
    · intro hh
      simp at hh
    · intro hh
      exact absurd (by simpa [max_file_size] using hh) hs
  · rw [hr]
    constructor
    · intro hh
      simp at hh
    · intro hh
      exact absurd (by simpa [max_file_size] using hh) hs
  · rw [hr]
    constructor
    · intro hh
      simp at hh
    · intro hh
      exact absurd (by simpa [max_file_size] using hh) hs

/-- Witness for C6 at a small JPEG upload. -/
theorem analyze_size_limit_iff_witness :
    (allowed_extensions.contains (file_ext "photo.jpg") = true) ∧
    ((analyze_image demoEnv "photo.jpg" [1, 2, 3] []).response =
        .error 422 "File size exceeds the 5MB limit." ↔
      [1, 2, 3].length > 5 * 1024 * 1024) :=
  ⟨by decide, analyze_size_limit_iff demoEnv "photo.jpg" [1, 2, 3] [] (by decide)⟩

/-- C2: every exception raised during decode, detection, or caption
generation inside `describe_scene` is caught and re-signalled
uniformly as an HTTP 500 processing error whose detail carries the
original exception message; a successful body passes through
untranslated. -/
theorem describe_scene_error_boundary (st : SceneStages) (t : ℚ) (m : Nat) :
    (∀ msg, st.decode = .error msg →
      describe_scene st t m =
        .error (500, "Error in scene description: " ++ msg)) ∧
    (∀ img msg, st.decode = .ok img → st.detect img = .error msg →
      describe_scene st t m =
        .error (500, "Error in scene description: " ++ msg)) ∧
    (∀ img dets msg, st.decode = .ok img → st.detect img = .ok dets →
      st.generate img "" m = .error msg →
      describe_scene st t m =
        .error (500, "Error in scene description: " ++ msg)) ∧
    (∀ img dets toks msg, st.decode = .ok img → st.detect img = .ok dets →
      st.generate img "" m = .ok toks →
      st.decodeTokens toks true = .error msg →
      describe_scene st t m =
        .error (500, "Error in scene description: " ++ msg)) ∧
    (∀ c, describe_scene_body st t m = .ok c →
      describe_scene st t m = .ok c) := by
  refine ⟨?_, ?_, ?_, ?_, ?_⟩
  · intro msg h
    unfold describe_scene describe_scene_body
    simp [h, Except.instMonad, Except.bind]
  · intro img msg h1 h2
    unfold describe_scene describe_scene_body
    simp [h1, h2, Except.instMonad, Except.bind, Except.map, Except.pure]
  · intro img dets msg h1 h2 h3
    unfold describe_scene describe_scene_body
    simp [h1, h2, h3, Except.instMonad, Except.bind]
  · intro img dets toks msg h1 h2 h3 h4
    unfold describe_scene describe_scene_body
    simp [h1, h2, h3, h4, Except.instMonad, Except.bind, Except.pure]
  · intro c h
    unfold describe_scene
    rw [h]

/-- Witness for C2: a decode failure on a corrupt file. -/
theorem describe_scene_error_boundary_witness :
    failStages.decode = .error "cannot identify image file" ∧
    describe_scene failStages default_detection_threshold
        default_max_caption_length =
      .error (500,
        "Error in scene description: " ++ "cannot identify image file") :=
  ⟨rfl,
    (describe_scene_error_boundary failStages default_detection_threshold
          default_max_caption_length).1
      "cannot identify image file" rfl⟩

/-- C4: on an image that decodes, `describe_scene` with the default
arguments (threshold 0.6, caption length 50) keeps exactly the
detections whose score is ≥ the threshold, runs the captioner with an
empty prompt and at most 50 tokens, decodes with special tokens
stripped, and returns only the caption string — the same caption
regardless of what the detector returned. -/
theorem describe_scene_pipeline (st : SceneStages) (img : Nat)
    (dets : List Detection) (toks : List Int) (cap : String)
    (h1 : st.decode = .ok img)
    (h2 : st.detect img = .ok dets)
    (h3 : st.generate img "" default_max_caption_length = .ok toks)
    (h4 : st.decodeTokens toks true = .ok cap) :
    describe_scene st default_detection_threshold
        default_max_caption_length = .ok cap ∧
    scene_detections st default_detection_threshold =
      .ok (dets.filter (fun d => default_detection_threshold ≤ d.score)) ∧
    (∀ (detect2 : Nat → Except String (List Detection))
        (dets2 : List Detection), detect2 img = .ok dets2 →
      describe_scene ⟨st.decode, detect2, st.generate, st.decodeTokens⟩
          default_detection_threshold default_max_caption_length = .ok cap) ∧
    default_detection_threshold = 0.6 ∧ default_max_caption_length = 50 := by
  refine ⟨?_, ?_, ?_, default_detection_threshold_eq, rfl⟩
  · unfold describe_scene describe_scene_body
    simp [h1, h2, h3, h4, Except.instMonad, Except.bind, Except.pure]
  · unfold scene_detections
    simp [h1, h2, Except.instMonad, Except.bind, Except.map, Except.pure]
  · intro detect2 dets2 hd2
    unfold describe_scene describe_scene_body
    simp [h1, h2, h3, h4, hd2, Except.instMonad, Except.bind, Except.pure]

/-- Witness for C4 on the sample stages: the low-confidence detection
is filtered out and the caption is returned unchanged. -/
theorem describe_scene_pipeline_witness :
    demoStages.decode = .ok 0 ∧
    describe_scene demoStages default_detection_threshold
        default_max_caption_length = .ok "a dog on grass" ∧
    scene_detections demoStages default_detection_threshold =
      .ok [⟨(0, 0, 2, 2), 1, mkRat 9 10⟩] :=
  ⟨rfl,
    (describe_scene_pipeline demoStages 0
        [⟨(0, 0, 2, 2), 1, mkRat 9 10⟩, ⟨(1, 1, 2, 2), 2, mkRat 1 2⟩]
        [101, 102] "a dog on grass" rfl rfl rfl rfl).1,
    by
      have h := (describe_scene_pipeline demoStages 0
        [⟨(0, 0, 2, 2), 1, mkRat 9 10⟩, ⟨(1, 1, 2, 2), 2, mkRat 1 2⟩]
        [101, 102] "a dog on grass" rfl rfl rfl rfl).2.1
      rw [h]
      decide⟩

/-- C3: a successful `POST /analyze/` responds with JSON
`{caption, audio_url}` where `audio_url = "/audio/" ++ stem ++ ".mp3"`
and `stem` is exactly the generated unique stem of the saved image
file; the audio artifact's filename keeps the image's stem and
replaces the extension with `.mp3`. -/
theorem analyze_success_response (env : AnalyzeEnv) (filename : String)
    (content : List Nat) (fs : FS) (cap : String) (ab : List Nat)
    (hext : allowed_extensions.contains (file_ext filename) = true)
    (hsize : ¬ content.length > max_file_size)
    (hdesc : describe_scene env.stages default_detection_threshold
      default_max_caption_length = .ok cap)
    (htts : env.tts cap = .ok ab)
    (hdot : ∀ c ∈ env.uuid4.toList, c ≠ '.')
    (hslash : ∀ c ∈ env.uuid4.toList, c ≠ '/') :
    (analyze_image env filename content fs).response =
      .json cap ("/audio/" ++ env.uuid4 ++ ".mp3") ∧
    (analyze_image env filename content fs).fs =
      ("uploads/" ++ env.uuid4 ++ ".mp3", ab) ::
        ("uploads/" ++ env.uuid4 ++ "." ++ file_ext filename, content) :: fs := by
  have e1 : "/audio/" ++ (env.uuid4 ++ ".mp3") =
      "/audio/" ++ env.uuid4 ++ ".mp3" := by
    apply String.ext
    simp [String.data_append, List.append_assoc]
  have e2 : "uploads" ++ "/" ++ (env.uuid4 ++ ".mp3") =
      "uploads/" ++ env.uuid4 ++ ".mp3" := by
    rw [show ("uploads/" : String) = "uploads" ++ "/" from by decide]
    apply String.ext
    simp [String.data_append, List.append_assoc]
  have e3 : "uploads" ++ "/" ++ (env.uuid4 ++ "." ++ file_ext filename) =
      "uploads/" ++ env.uuid4 ++ "." ++ file_ext filename := by
    rw [show ("uploads/" : String) = "uploads" ++ "/" from by decide]
    apply String.ext
    simp [String.data_append, List.append_assoc]
  rw [analyze_success_shape env filename content fs cap ab hext hsize hdesc
    htts hdot hslash, e1, e2, e3]
  exact ⟨rfl, rfl⟩

/-- Witness for C3 on the all-success sample environment. -/
theorem analyze_success_response_witness :
    (analyze_image demoEnv "photo.jpg" [1, 2, 3] []).response =
      .json "a dog on grass" ("/audio/" ++ "u0" ++ ".mp3") ∧
    (analyze_image demoEnv "photo.jpg" [1, 2, 3] []).fs =
      [("uploads/" ++ "u0" ++ ".mp3", [3, 4]),
        ("uploads/" ++ "u0" ++ "." ++ file_ext "photo.jpg", [1, 2, 3])] :=
  analyze_success_response demoEnv "photo.jpg" [1, 2, 3] []
    "a dog on grass" [3, 4] (by decide) (by decide) (by decide) (by decide)
    (by decide) (by decide)

/-- C5: `GET /audio/{filename}` (for a path component, i.e. a name
without `/`) checks existence under the upload directory only:
it responds 404 exactly when `uploads/{filename}` does not exist, and
otherwise serves exactly that path with media type `audio/mpeg` — a
path under the upload directory. -/
theorem get_audio_contract (fs : FS) (filename : String)
    (hns : ∀ c ∈ filename.toList, c ≠ '/') :
    (get_audio fs filename = .error 404 "Audio file not found" ↔
      fs.lookup ("uploads/" ++ filename) = none) ∧
    (fs.lookup ("uploads/" ++ filename) ≠ none →
      get_audio fs filename =
        .fileResp ("uploads/" ++ filename) "audio/mpeg") := by
  have hb : filename.toList.head? ≠ some '/' := by
    cases hl : filename.toList with
    | nil => simp
    | cons c rest =>
      have hc : c ∈ filename.toList := by rw [hl]; simp
      simpa using hns c hc
  have hjoin : os_path_join UPLOAD_DIR filename = "uploads/" ++ filename := by
    rw [os_path_join_uploads filename hb,
      show ("uploads" ++ "/" : String) = "uploads/" from by decide]
  unfold get_audio
  rw [hjoin]
  by_cases hl : fs.lookup ("uploads/" ++ filename) = none
  · rw [if_pos (by rw [hl]; rfl)]
    simp [hl]
  · rw [if_neg (by simp [hl])]
    constructor
    · constructor
      · intro hh
        simp at hh
      · intro hh
        exact absurd hh hl
    · intro _
      rfl

/-- Witness for C5: a stored audio file is served, a missing one is
not. -/
theorem get_audio_contract_witness :
    (∀ c ∈ ("x.mp3" : String).toList, c ≠ '/') ∧
    ((get_audio [("uploads/x.mp3", [1])] "x.mp3" =
        .error 404 "Audio file not found" ↔
      ([("uploads/x.mp3", [1])] : FS).lookup ("uploads/" ++ "x.mp3") = none) ∧
    (([("uploads/x.mp3", [1])] : FS).lookup ("uploads/" ++ "x.mp3") ≠ none →
      get_audio [("uploads/x.mp3", [1])] "x.mp3" =
        .fileResp ("uploads/" ++ "x.mp3") "audio/mpeg")) :=
  ⟨by decide, get_audio_contract [("uploads/x.mp3", [1])] "x.mp3" (by decide)⟩

/-- C7: when the pipeline fails after the upload has been persisted
(in the describe stage or the synthesis stage), the endpoint returns
an error response and the written upload file remains in the
filesystem, which is otherwise unchanged: no rollback happens. -/
theorem analyze_no_rollback_on_failure (env : AnalyzeEnv)
    (filename : String) (content : List Nat) (fs : FS)
    (hext : allowed_extensions.contains (file_ext filename) = true)
    (hsize : ¬ content.length > max_file_size) :
    (∀ e, describe_scene env.stages default_detection_threshold
        default_max_caption_length = .error e →
      (analyze_image env filename content fs).fs =
        (os_path_join UPLOAD_DIR (env.uuid4 ++ "." ++ file_ext filename),
          content) :: fs ∧
      (analyze_image env filename content fs).response = .error e.1 e.2) ∧
    (∀ cap m, describe_scene env.stages default_detection_threshold
        default_max_caption_length = .ok cap → env.tts cap = .error m →
      (analyze_image env filename content fs).fs =
        (os_path_join UPLOAD_DIR (env.uuid4 ++ "." ++ file_ext filename),
          content) :: fs ∧
      (analyze_image env filename content fs).response =
        .error 500 ("Failed to process image: " ++ m)) := by
  rcases analyze_image_cases env filename content fs with
    ⟨hx, _⟩ | ⟨_, hs, _⟩ |
    ⟨_, _, ⟨d, hd, hr⟩ | ⟨cap, m, hd, ht, hr⟩ | ⟨cap, ab, hd, ht, hr⟩⟩
  · rw [hext] at hx
    exact absurd hx (by simp)
  · exact absurd hs hsize
  · constructor
    · intro e he
      rw [hd] at he
      obtain rfl : e = (500, d) := by
        injection he with h
        rw [h]
      exact ⟨by rw [hr], by rw [hr]⟩
    · intro cap m hd2 _
      rw [hd] at hd2
      simp at hd2
  · constructor
    · intro e he
      rw [hd] at he
      simp at he
    · intro cap2 m2 hd2 ht2
      rw [hd] at hd2
      obtain rfl : cap2 = cap := by
        injection hd2 with h
        rw [h]
      rw [ht] at ht2
      obtain rfl : m2 = m := by
        injection ht2 with h
        rw [h]
      exact ⟨by rw [hr], by rw [hr]⟩
  · constructor
    · intro e he
      rw [hd] at he
      simp at he
    · intro cap2 m2 hd2 ht2
      rw [hd] at hd2
      obtain rfl : cap2 = cap := by
        injection hd2 with h
        rw [h]
      rw [ht] at ht2
      simp at ht2

/-- Witness for C7: a decode failure leaves the persisted upload in
place. -/
theorem analyze_no_rollback_on_failure_witness :
    (allowed_extensions.contains (file_ext "photo.jpg") = true) ∧
    (¬ ([1] : List Nat).length > max_file_size) ∧
    (describe_scene failEnv.stages default_detection_threshold
        default_max_caption_length =
      .error (500,
        "Error in scene description: cannot identify image file")) ∧
    ((analyze_image failEnv "photo.jpg" [1] []).fs =
      [(os_path_join UPLOAD_DIR (failEnv.uuid4 ++ "." ++ file_ext "photo.jpg"),
        [1])] ∧
    (analyze_image failEnv "photo.jpg" [1] []).response =
      .error (500,
        "Error in scene description: cannot identify image file").1
        (500, "Error in scene description: cannot identify image file").2) :=
  ⟨by decide, by decide, by decide,
    (analyze_no_rollback_on_failure failEnv "photo.jpg" [1] []
        (by decide) (by decide)).1
      (500, "Error in scene description: cannot identify image file")
      (by decide)⟩

lemma analyze_json_url (env : AnalyzeEnv) (filename : String)
    (content : List Nat) (fs : FS) (c a : String)
    (hdot : ∀ ch ∈ env.uuid4.toList, ch ≠ '.')
    (hslash : ∀ ch ∈ env.uuid4.toList, ch ≠ '/')
    (h : (analyze_image env filename content fs).response = .json c a) :
    a = "/audio/" ++ (env.uuid4 ++ ".mp3") := by
  rcases analyze_image_cases env filename content fs with
    ⟨hx, hr⟩ | ⟨hx, hs, hr⟩ |
    ⟨hx, hs, ⟨d, hd, hr⟩ | ⟨cap, m, hd, ht, hr⟩ | ⟨cap, ab, hd, ht, hr⟩⟩
  · rw [hr] at h
    simp at h
  · rw [hr] at h
    simp at h
  · rw [hr] at h
    simp at h
  · rw [hr] at h
    simp at h
  · rw [hr] at h
    injection h with hcap hurl
    rw [← hurl, analyze_file_path env.uuid4 (file_ext filename) hslash,
      tts_file_eq env.uuid4 (file_ext filename) hdot,
      basename_tts env.uuid4 hslash]

/-- C8: two successful `POST /analyze/` calls whose per-call generated
identifiers are distinct (as uuid4 values drawn fresh per call are)
return distinct `audio_url` values, even on byte-identical uploads. -/
theorem analyze_unique_audio_urls (env1 env2 : AnalyzeEnv)
    (f1 f2 : String) (ct1 ct2 : List Nat) (fs1 fs2 : FS)
    (c1 a1 c2 a2 : String)
    (hne : env1.uuid4 ≠ env2.uuid4)
    (hdot1 : ∀ ch ∈ env1.uuid4.toList, ch ≠ '.')
    (hslash1 : ∀ ch ∈ env1.uuid4.toList, ch ≠ '/')
    (hdot2 : ∀ ch ∈ env2.uuid4.toList, ch ≠ '.')
    (hslash2 : ∀ ch ∈ env2.uuid4.toList, ch ≠ '/')
    (h1 : (analyze_image env1 f1 ct1 fs1).response = .json c1 a1)
    (h2 : (analyze_image env2 f2 ct2 fs2).response = .json c2 a2) :
    a1 ≠ a2 := by
  rw [analyze_json_url env1 f1 ct1 fs1 c1 a1 hdot1 hslash1 h1,
    analyze_json_url env2 f2 ct2 fs2 c2 a2 hdot2 hslash2 h2]
  intro he
  apply hne
  have hd := congrArg String.data he
  simp [String.data_append] at hd
  exact String.ext hd

/-- Witness for C8: the same image uploaded twice under two sample
environments with distinct identifiers yields distinct audio URLs. -/
theorem analyze_unique_audio_urls_witness :
    (demoEnv.uuid4 ≠ demoEnv2.uuid4) ∧
    ((analyze_image demoEnv "photo.jpg" [1, 2, 3] []).response =
      .json "a dog on grass" "/audio/u0.mp3") ∧
    ((analyze_image demoEnv2 "photo.jpg" [1, 2, 3] []).response =
      .json "a dog on grass" "/audio/u3.mp3") ∧
    ("/audio/u0.mp3" : String) ≠ "/audio/u3.mp3" :=
  ⟨by decide, by decide, by decide,
    analyze_unique_audio_urls demoEnv demoEnv2 "photo.jpg" "photo.jpg"
      [1, 2, 3] [1, 2, 3] [] [] "a dog on grass" "/audio/u0.mp3"
      "a dog on grass" "/audio/u3.mp3" (by decide) (by decide) (by decide)
      (by decide) (by decide) (by decide) (by decide)⟩

/-- Counterexample to C9 as stated: `"JPG"` is a dotless filename that
is not literally one of `jpg`, `jpeg`, `png`, yet the request is NOT
rejected with 422 — the extension check lowercases the name first. -/
theorem analyze_dotless_validation_counterexample :
    (∀ c ∈ ("JPG" : String).toList, c ≠ '.') ∧
    ("JPG" ∉ allowed_extensions) ∧
    (analyze_image demoEnv "JPG" [] []).response.status = 200 ∧
    (analyze_image demoEnv "JPG" [] []).response.status ≠ 422 := by
  decide

/-- C9 (amended): for a dotless filename the whole name is treated as
the extension, so the request passes type validation exactly when the
lowercased name is one of `jpg`, `jpeg`, `png` (so `jpg`, `JPG`, …
pass), and is rejected with 422 (writing nothing) otherwise. -/
theorem analyze_dotless_validation (env : AnalyzeEnv) (filename : String)
    (content : List Nat) (fs : FS)
    (hdot : ∀ c ∈ filename.toList, c ≠ '.') :
    file_ext filename = String.mk (pyLower filename.toList) ∧
    (allowed_extensions.contains (String.mk (pyLower filename.toList)) = false →
      analyze_image env filename content fs =
        ⟨.error 422 "Invalid file type. Only JPG, JPEG, and PNG are allowed.",
          fs, false⟩) ∧
    (allowed_extensions.contains (String.mk (pyLower filename.toList)) = true →
      (analyze_image env filename content fs).response ≠
        .error 422 "Invalid file type. Only JPG, JPEG, and PNG are allowed.") := by
  have hfe : file_ext filename = String.mk (pyLower filename.toList) := by
    unfold file_ext
    rw [lastComponentAfter_sep_free '.' filename.toList hdot]
  refine ⟨hfe, ?_, ?_⟩
  · intro h
    unfold analyze_image
    rw [if_pos (by rw [hfe]; exact h)]
  · intro h
    rcases analyze_image_cases env filename content fs with
      ⟨hx, hr⟩ | ⟨hx, hs, hr⟩ |
      ⟨hx, hs, ⟨d, hd, hr⟩ | ⟨cap, m, hd, ht, hr⟩ | ⟨cap, ab, hd, ht, hr⟩⟩
    · rw [hfe, h] at hx
      exact absurd hx (by simp)
    · rw [hr]
      show Response.error 422 "File size exceeds the 5MB limit." ≠ _
      decide
    · rw [hr]
      intro hh
      injection hh with hst hdet
      simp at hst
    · rw [hr]
      intro hh
      injection hh with hst hdet
      simp at hst
    · rw [hr]
      intro hh
      simp at hh

/-- Witness for C9 (amended), at the dotless filename `"JPG"`. -/
theorem analyze_dotless_validation_witness :
    (∀ c ∈ ("JPG" : String).toList, c ≠ '.') ∧
    (file_ext "JPG" = String.mk (pyLower ("JPG" : String).toList) ∧
    (allowed_extensions.contains (String.mk (pyLower ("JPG" : String).toList)) = false →
      analyze_image demoEnv "JPG" [] [] =
        ⟨.error 422 "Invalid file type. Only JPG, JPEG, and PNG are allowed.",
          [], false⟩) ∧
    (allowed_extensions.contains (String.mk (pyLower ("JPG" : String).toList)) = true →
      (analyze_image demoEnv "JPG" [] []).response ≠
        .error 422 "Invalid file type. Only JPG, JPEG, and PNG are allowed.")) :=
  ⟨by decide, analyze_dotless_validation demoEnv "JPG" [] [] (by decide)⟩

end BlindHelp
